import Mathlib

/-!
Verification of the borc CBOR decoder (`src/decoder.js`).

A shallow embedding of the decoder's value-tree builder, its event-to-tree
adapter callbacks, and the public decode entry points, together with theorems
settling the specification claims about them.

The byte scanner (`decoder.asm`), the numeric helpers (`utils.js`), and the
`SHIFT32` constant (`constants.js`) are not among the available sources; where
they are needed they are modelled from the spec and marked as such.  Everything
else is translated directly from `src/decoder.js`.

JavaScript value semantics is embedded as follows:

* JS numbers that occur in the decoder are integers in the IEEE-754 safe range,
  `NaN`, `Infinity` and `-Infinity`; they are modelled by `JNum`.  Integer
  arithmetic on them is exact as long as magnitudes stay at or below `2^53`,
  which the theorems below track explicitly where it matters.
* The `length` property that `_dec` reads was never assigned by `_createParent`
  (which stores the count under `left`) nor by `_reset` (which stores `len`),
  so reading it yields `undefined`; `JProp` is the type of that
  possibly-absent numeric property (`undefined < 0` is `false`,
  `undefined - 1` is `NaN`, `NaN === 0` is `false`).
* Containers (JS arrays, plain objects, `Map`s) are mutable and aliased, so
  they live in an address-indexed store (`List Cont`) and values reference
  them through `Val.ref`.  Fresh allocations append to the store, hence every
  reference stored inside a container points to a strictly later address.
* `Bignumber` and `ArrayBuffer` instances are compared by object identity in a
  JS `Map`; since each one pushed by the decoder is freshly constructed, two
  of them are never the same object, and `sameValueZero` reflects that.
-/

namespace Borc

/-- A JavaScript number as it occurs in the decoder: an integer in the safe
range, `NaN`, or an infinity. -/
inductive JNum where
  | int (i : Int)
  | nan
  | inf
  | negInf
deriving DecidableEq

/-- The value of a possibly-absent numeric object property (the `length`
property that `_dec` manipulates): `undefined` until first assigned. -/
inductive JProp where
  | undef
  | num (n : JNum)
deriving DecidableEq

/-- The parent-type constants `PARENT_ARRAY`, `PARENT_OBJECT`, `PARENT_MAP`,
`PARENT_TAG` of `decoder.js`. -/
inductive PType where
  | array
  | object
  | map
  | tag
deriving DecidableEq

/-- A decoded JavaScript value.  Containers are referenced by their address in
the store. -/
inductive Val where
  | null
  | undef
  | bool (b : Bool)
  | num (n : JNum)
  | bignum (i : Int)
  | str (s : String)
  | bytes (bs : List Nat)
  | ref (a : Nat)
deriving DecidableEq

/-- A container held in the store: a JS array, a plain (string-keyed) object,
or a `Map`. -/
inductive Cont where
  | arr (es : List Val)
  | obj (es : List (String × Val))
  | map (es : List (Val × Val))
deriving DecidableEq

/-- One frame of `this._parents`.  The source is inconsistent about the field
holding the expected child count: `_createParent` stores it under `left`,
`_reset` stores `len` on the root frame, while `_dec` reads and writes
`length`, a property that neither of them ever sets. -/
structure Frame where
  type : PType
  left : Option Int
  len : Option Int
  length : JProp
  ref : Nat
deriving DecidableEq

/-- The decoder's mutable state: the container store, the frame stack
`this._parents`, and `this._tmpKey`. -/
structure DState where
  store : List Cont
  parents : List Frame
  tmpKey : Val
deriving DecidableEq

/-- JS `p.length < 0` where `p.length : JProp` (`undefined < 0` is `false`
because the comparison goes through `NaN`). -/
def jsLtZero : JProp → Bool
  | .undef => false
  | .num (.int i) => i < 0
  | .num .nan => false
  | .num .inf => false
  | .num .negInf => true

/-- JS `p.length - 1` (the value stored back by `p.length --`):
`undefined - 1` is `NaN`. -/
def jsDecOne : JProp → JProp
  | .undef => .num .nan
  | .num (.int i) => .num (.int (i - 1))
  | .num .nan => .num .nan
  | .num .inf => .num .inf
  | .num .negInf => .num .negInf

/-- JS `p.length === 0`. -/
def jsEqZero : JProp → Bool
  | .num (.int i) => i == 0
  | _ => false

/-- JavaScript truthiness of a decoded value (`false`, `0`, `NaN`, the empty
string, `null` and `undefined` are falsy; every object is truthy). -/
def truthy : Val → Bool
  | .null => false
  | .undef => false
  | .bool b => b
  | .num (.int i) => i != 0
  | .num .nan => false
  | .num .inf => true
  | .num .negInf => true
  | .str s => s != ""
  | .bignum _ => true
  | .bytes _ => true
  | .ref _ => true

/-- JS `typeof v === 'string'`. -/
def isString : Val → Bool
  | .str _ => true
  | _ => false

/-- The SameValueZero comparison used by `Map.prototype.set` for key lookup.
`NaN` equals `NaN`; `Bignumber` and `ArrayBuffer` instances are compared by
object identity, and since the decoder only ever constructs fresh instances,
two of them are never the same object. -/
def sameValueZero : Val → Val → Bool
  | .null, .null => true
  | .undef, .undef => true
  | .bool a, .bool b => a == b
  | .num a, .num b => a == b
  | .str a, .str b => a == b
  | .ref a, .ref b => a == b
  | .bignum _, .bignum _ => false
  | .bytes _, .bytes _ => false
  | _, _ => false

/-- Read a container from the store (addresses produced by the decoder are
always in range, so the default is unreachable). -/
def storeGet (st : List Cont) (a : Nat) : Cont :=
  st.getD a (.arr [])

/-- JS `Array.prototype.push` on a stored container. -/
def arrPush (v : Val) : Cont → Cont
  | .arr es => .arr (es ++ [v])
  | c => c

/-- JS property assignment `obj[k] = v` on the entry list of a plain object:
overwrite in place if the key exists, otherwise append.  (JS additionally
orders integer-like property keys first; no container built by these runs
ever receives an integer-like key, so insertion order suffices.) -/
def objSetEntries (k : String) (v : Val) : List (String × Val) → List (String × Val)
  | [] => [(k, v)]
  | (k', w) :: rest =>
    if k' = k then (k', v) :: rest else (k', w) :: objSetEntries k v rest

/-- `Map.prototype.set` on the entry list of a `Map`: replace the value of an
existing key (SameValueZero), keeping its position, otherwise append. -/
def mapSetEntries (k v : Val) : List (Val × Val) → List (Val × Val)
  | [] => [(k, v)]
  | (k', w) :: rest =>
    if sameValueZero k' k then (k', v) :: rest else (k', w) :: mapSetEntries k v rest

/-- `obj[k] = v` lifted to a container. -/
def objSet (k : String) (v : Val) : Cont → Cont
  | .obj es => .obj (objSetEntries k v es)
  | c => c

/-- `map.set(k, v)` lifted to a container. -/
def mapSet (k v : Val) : Cont → Cont
  | .map es => .map (mapSetEntries k v es)
  | c => c

/-- The entries of a plain-object container. -/
def objEntries : Cont → List (String × Val)
  | .obj es => es
  | _ => []

/-- The elements of an array container. -/
def arrElems : Cont → List Val
  | .arr es => es
  | _ => []

/-- JS `ToString` of a value, as used when a non-string value is applied as a
property key (`this._ref[this._tmpKey] = val`).  Arrays stringify by joining
the element strings with `","`, `null` and `undefined` elements contributing
the empty string.  References inside containers always point to strictly
later store addresses, so a fuel of one unit per store entry is enough; the
out-of-fuel default is unreachable on decoder-produced stores. -/
def jsToStr (st : List Cont) : Nat → Val → String
  | _, .str s => s
  | _, .num (.int i) => toString i
  | _, .num .nan => "NaN"
  | _, .num .inf => "Infinity"
  | _, .num .negInf => "-Infinity"
  | _, .bool true => "true"
  | _, .bool false => "false"
  | _, .null => "null"
  | _, .undef => "undefined"
  | _, .bignum i => toString i
  | _, .bytes _ => "[object ArrayBuffer]"
  | 0, .ref _ => ""
  | fuel + 1, .ref a =>
    match storeGet st a with
    | .arr es =>
      String.intercalate ","
        (es.map fun e =>
          match e with
          | .null => ""
          | .undef => ""
          | e => jsToStr st fuel e)
    | .obj _ => "[object Object]"
    | .map _ => "[object Map]"

/-- Modelled from the spec: `utils.buildInt32` lives in `utils.js`, which is
not among the sources.  §4.2 specifies `combine32(hi16, lo16) -> u32` as
big-endian fragment assembly. -/
def buildInt32 (f g : Nat) : Nat :=
  f * 65536 + g

/-- Modelled from the spec: the `SHIFT32` constant lives in `constants.js`,
which is not among the sources.  §4.2 describes the 64-bit reconstruction as
`high * 2^32 + low`. -/
def SHIFT32 : Nat := 4294967296

/-- `MAX_SAFE_HIGH = 0x1fffff`, the high-word safe-integer threshold of
`decoder.js`. -/
def MAX_SAFE_HIGH : Nat := 0x1fffff

/-- Modelled from the spec: `utils.buildMap` lives in `utils.js`, which is not
among the sources.  §3/§4.1 specify that promotion migrates the accumulated
string-keyed contents into a general mapping with no loss of entries, keeping
their order. -/
def buildMap (es : List (String × Val)) : List (Val × Val) :=
  es.map fun p => (Val.str p.1, p.2)

/-- The value pushed by `Decoder.pushInt64Neg`: the high and low words are
assembled with `buildInt32`; a high word above `MAX_SAFE_HIGH` switches to a
`Bignumber` computed as `NEG_ONE.sub(new Bignumber(f).times(SHIFT32).plus(g))`,
otherwise the result is the native number `-1 - ((f * SHIFT32) + g)` (exact:
its magnitude stays at or below `2^53`). -/
def pushInt64NegVal (f1 f2 g1 g2 : Nat) : Val :=
  let f := buildInt32 f1 f2
  let g := buildInt32 g1 g2
  if f > MAX_SAFE_HIGH then
    Val.bignum (-1 - ((f : Int) * (SHIFT32 : Int) + (g : Int)))
  else
    Val.num (.int (-1 - (((f : Int) * (SHIFT32 : Int)) + (g : Int))))

/-- The value pushed by `Decoder.pushInt32Neg`: `-1 - utils.buildInt32(f, g)`
(exact: the magnitude is below `2^33`). -/
def pushInt32NegVal (f g : Nat) : Val :=
  Val.num (.int (-1 - (buildInt32 f g : Int)))

/-- Decode a byte list as UTF-8 the way `Buffer.prototype.toString('utf8')`
does: valid sequences decode exactly; invalid bytes and truncated or overlong
sequences are replaced by U+FFFD, one replacement per maximal invalid subpart,
with an offending trailing byte re-examined as a fresh lead byte.  The fuel is
the number of bytes left, which bounds the number of decoding steps. -/
def replChar : Char := Char.ofNat 0xFFFD

/-- One U+FFFD-replacing UTF-8 decoding step per unit of fuel. -/
def utf8DecodeAux : Nat → List Nat → List Char
  | 0, _ => []
  | _, [] => []
  | fuel + 1, b :: bs =>
    if b < 0x80 then
      Char.ofNat b :: utf8DecodeAux fuel bs
    else if 0xC2 ≤ b ∧ b ≤ 0xDF then
      match bs with
      | [] => [replChar]
      | b2 :: bs2 =>
        if 0x80 ≤ b2 ∧ b2 ≤ 0xBF then
          Char.ofNat ((b - 0xC0) * 0x40 + (b2 - 0x80)) :: utf8DecodeAux fuel bs2
        else
          replChar :: utf8DecodeAux fuel bs
    else if 0xE0 ≤ b ∧ b ≤ 0xEF then
      match bs with
      | [] => [replChar]
      | b2 :: bs2 =>
        if (if b = 0xE0 then 0xA0 else 0x80) ≤ b2 ∧
            b2 ≤ (if b = 0xED then 0x9F else 0xBF) then
          match bs2 with
          | [] => [replChar]
          | b3 :: bs3 =>
            if 0x80 ≤ b3 ∧ b3 ≤ 0xBF then
              Char.ofNat ((b - 0xE0) * 0x1000 + (b2 - 0x80) * 0x40 + (b3 - 0x80)) ::
                utf8DecodeAux fuel bs3
            else
              replChar :: utf8DecodeAux fuel bs2
        else
          replChar :: utf8DecodeAux fuel bs
    else if 0xF0 ≤ b ∧ b ≤ 0xF4 then
      match bs with
      | [] => [replChar]
      | b2 :: bs2 =>
        if (if b = 0xF0 then 0x90 else 0x80) ≤ b2 ∧
            b2 ≤ (if b = 0xF4 then 0x8F else 0xBF) then
          match bs2 with
          | [] => [replChar]
          | b3 :: bs3 =>
            if 0x80 ≤ b3 ∧ b3 ≤ 0xBF then
              match bs3 with
              | [] => [replChar]
              | b4 :: bs4 =>
                if 0x80 ≤ b4 ∧ b4 ≤ 0xBF then
                  Char.ofNat ((b - 0xF0) * 0x40000 + (b2 - 0x80) * 0x1000 +
                      (b3 - 0x80) * 0x40 + (b4 - 0x80)) ::
                    utf8DecodeAux fuel bs4
                else
                  replChar :: utf8DecodeAux fuel bs3
            else
              replChar :: utf8DecodeAux fuel bs2
        else
          replChar :: utf8DecodeAux fuel bs
    else
      replChar :: utf8DecodeAux fuel bs

/-- `(new Buffer(bytes)).toString('utf8')`. -/
def utf8Decode (bs : List Nat) : String :=
  String.mk (utf8DecodeAux bs.length bs)

/-- Replace the last element of a list (mutation of the frame object aliased
by `this._parents[this._depth - 1]`). -/
def updateLast (l : List Frame) (p : Frame) : List Frame :=
  l.dropLast ++ [p]

/-- `Decoder._closeParent`: `this._parents.pop()`. -/
def _closeParent (s : DState) : DState :=
  { s with parents := s.parents.dropLast }

/-- `Decoder._dec`: reads `p.length` — a property no other method ever sets,
so it is `undefined` on first read and `NaN` afterwards — returns early when
it is negative, decrements it, and closes the parent when it lands on `0`.
An empty frame stack is unreachable (JS would fault on it); it is mapped to
the identity. -/
def _dec (s : DState) : DState :=
  match s.parents.getLast? with
  | none => s
  | some p =>
    if jsLtZero p.length then s
    else
      let l := jsDecOne p.length
      let s1 : DState := { s with parents := updateLast s.parents { p with length := l } }
      if jsEqZero l then _closeParent s1 else s1

/-- The string a non-string pending key turns into when used in
`this._ref[this._tmpKey] = val`. -/
def jsPropKey (s : DState) (v : Val) : String :=
  jsToStr s.store s.store.length v

/-- `Decoder._push`: route a value to the current parent frame.
`PARENT_ARRAY` appends and decrements; `PARENT_OBJECT` and `PARENT_MAP` treat
`this._tmpKey` as the pending key, testing it by truthiness; an object frame
that receives a non-string pending key is promoted in place to a map frame
whose `ref` is a freshly built `Map` (`p.ref = utils.buildMap(p.ref)`).
`PARENT_TAG` is a TODO in the source and does nothing.  An empty frame stack
is unreachable (JS would fault) and is mapped to the identity. -/
def _push (v : Val) (s : DState) : DState :=
  match s.parents.getLast? with
  | none => s
  | some p =>
    match p.type with
    | .array =>
      _dec { s with store := s.store.set p.ref (arrPush v (storeGet s.store p.ref)) }
    | .object =>
      if truthy s.tmpKey then
        _dec { s with
          store := s.store.set p.ref (objSet (jsPropKey s s.tmpKey) v (storeGet s.store p.ref)),
          tmpKey := Val.null }
      else
        let s1 : DState := { s with tmpKey := v }
        if isString v then s1
        else
          { s1 with
            store := s1.store ++ [Cont.map (buildMap (objEntries (storeGet s1.store p.ref)))],
            parents := updateLast s1.parents { p with type := .map, ref := s1.store.length } }
    | .map =>
      if truthy s.tmpKey then
        _dec { s with
          store := s.store.set p.ref (mapSet s.tmpKey v (storeGet s.store p.ref)),
          tmpKey := Val.null }
      else
        { s with tmpKey := v }
    | .tag => s

/-- `Decoder._createParent`: allocate the new container, push it into the
current parent exactly like a leaf, then append a frame for it whose declared
count is stored under `left`. -/
def _createParent (c : Cont) (t : PType) (len : Int) (s : DState) : DState :=
  let a := s.store.length
  let s1 : DState := { s with store := s.store ++ [c] }
  let s2 := _push (Val.ref a) s1
  { s2 with
    parents := s2.parents ++ [{ type := t, left := some len, len := none, length := .undef, ref := a }] }

/-- `Decoder._createArrayStartFixed`: `new Array(len)` (whose `len` holes read
as `undefined`) opened as a `PARENT_ARRAY` frame. -/
def _createArrayStartFixed (len : Nat) (s : DState) : DState :=
  _createParent (.arr (List.replicate len Val.undef)) .array (len : Int) s

/-- `Decoder._createObjectStartFixed`: a fresh `{}` opened as a
`PARENT_OBJECT` frame. -/
def _createObjectStartFixed (len : Nat) (s : DState) : DState :=
  _createParent (.obj []) .object (len : Int) s

/-- `Decoder._reset`: a fresh result array at address `0` and the single root
frame, whose count field is named `len` (not the `length` that `_dec` reads). -/
def initState : DState :=
  { store := [.arr []],
    parents := [{ type := .array, left := none, len := some (-1), length := .undef, ref := 0 }],
    tmpKey := Val.null }

/-- One scanner event, i.e. one invocation of an adapter callback of
`decoder.js`.  The float callbacks (`pushFloat*`, via the external `ieee754`
library) and the 32/64-bit length variants (which only route a `buildInt32`/
`buildInt64` result into the same `_create*` helpers) are not modelled. -/
inductive Event where
  | pushInt (v : Int)
  | pushInt32 (f g : Nat)
  | pushInt32Neg (f g : Nat)
  | pushInt64Neg (f1 f2 g1 g2 : Nat)
  | pushTrue
  | pushFalse
  | pushNull
  | pushUndefined
  | pushInfinity
  | pushInfinityNeg
  | pushNaN
  | pushNaNNeg
  | pushArrayStartFixed (len : Nat)
  | pushObjectStartFixed (len : Nat)
  | pushByteString (start stop : Nat)
  | pushUtf8String (start stop : Nat)
deriving DecidableEq

/-- The byte range `this._heap.slice(start, end + 1)` of the shared input
region (the input is copied to offset `0`; every slice taken below stays
inside it). -/
def heapSlice (heap : List Nat) (start stop : Nat) : List Nat :=
  (heap.drop start).take (stop + 1 - start)

/-- Dispatch one adapter callback.  `pushNaNNeg` pushes `-NaN`, which
ECMAScript's unary minus evaluates to `NaN` (all NaN values are
indistinguishable to ECMAScript code). -/
def runEvent (heap : List Nat) (s : DState) : Event → DState
  | .pushInt v => _push (.num (.int v)) s
  | .pushInt32 f g => _push (.num (.int (buildInt32 f g))) s
  | .pushInt32Neg f g => _push (pushInt32NegVal f g) s
  | .pushInt64Neg f1 f2 g1 g2 => _push (pushInt64NegVal f1 f2 g1 g2) s
  | .pushTrue => _push (.bool true) s
  | .pushFalse => _push (.bool false) s
  | .pushNull => _push .null s
  | .pushUndefined => _push .undef s
  | .pushInfinity => _push (.num .inf) s
  | .pushInfinityNeg => _push (.num .negInf) s
  | .pushNaN => _push (.num .nan) s
  | .pushNaNNeg => _push (.num .nan) s
  | .pushArrayStartFixed len => _createArrayStartFixed len s
  | .pushObjectStartFixed len => _createObjectStartFixed len s
  | .pushByteString start stop => _push (.bytes (heapSlice heap start stop)) s
  | .pushUtf8String start stop => _push (.str (utf8Decode (heapSlice heap start stop))) s

/-- Run the event sequence the scanner emits for one parse. -/
def runEvents (heap : List Nat) (evs : List Event) (s : DState) : DState :=
  evs.foldl (runEvent heap) s

/-- `Decoder._decode`.  Modelled from the spec at the scanner boundary: the
external byte scanner (`decoder.asm`, not among the sources) is represented
by the event list it emits and the integer status code it returns (§6: zero
for success, non-zero for a scan failure).  `_decode` resets, copies the
input, runs the parse, and throws `'Failed to parse'` exactly when the status
code is greater than zero. -/
def _decode (heap : List Nat) (evs : List Event) (code : Int) : Except String DState :=
  let s := runEvents heap evs initState
  if 0 < code then .error "Failed to parse" else .ok s

/-- `this._res[0]`: the first element of the root array, `undefined` when the
root array is empty. -/
def res0 (s : DState) : Val :=
  (arrElems (storeGet s.store 0)).getD 0 Val.undef

/-- `Decoder.decodeFirst`: `_decode` then `this._res[0]`. -/
def decodeFirst (heap : List Nat) (evs : List Event) (code : Int) : Except String Val :=
  (_decode heap evs code).map res0

/-- `Decoder.decodeAll`: `_decode` then `this._res`. -/
def decodeAll (heap : List Nat) (evs : List Event) (code : Int) : Except String (List Val) :=
  (_decode heap evs code).map fun s => arrElems (storeGet s.store 0)

instance {ε α : Type} [DecidableEq ε] [DecidableEq α] : DecidableEq (Except ε α) :=
  fun x y =>
    match x, y with
    | .ok a, .ok b => if h : a = b then .isTrue (by rw [h]) else .isFalse (by simp [h])
    | .error a, .error b => if h : a = b then .isTrue (by rw [h]) else .isFalse (by simp [h])
    | .ok _, .error _ => .isFalse (by simp)
    | .error _, .ok _ => .isFalse (by simp)

/-- C1: the claim says a frame opened with a non-sentinel declared length has
its remaining-children count decremented by one per pushed value and is popped
exactly when the count reaches zero.  The code violates this: `_createParent`
stores the declared count under `left` while `_dec` decrements the never-set
`length` property, so after decoding the one-element fixed array (events
`pushArrayStartFixed 1`, `pushInt 1`) the frame's `left` is still `1`, its
`length` is `NaN`, and the frame is still on the stack (depth 2). -/
theorem c1_count_never_decremented_frame_never_popped :
    (runEvents [] [Event.pushArrayStartFixed 1, Event.pushInt 1] initState).parents.length = 2 ∧
    (runEvents [] [Event.pushArrayStartFixed 1, Event.pushInt 1] initState).parents.getLast? =
      some { type := .array, left := some 1, len := none, length := .num .nan, ref := 1 } := by
  decide

/-- C2: the claim says a well-formed fixed-length CBOR array of N items
decodes to a sequence of length exactly N.  The code violates it already at
N = 1 (bytes `81 01`): `new Array(len)` preallocates `len` holes and `_push`
appends after them, so `decodeFirst` returns the array at address 1, whose
contents are `[undefined, 1]` — length 2, not 1. -/
theorem c2_fixed_array_decodes_to_double_length :
    decodeFirst [] [Event.pushArrayStartFixed 1, Event.pushInt 1] 0 = Except.ok (Val.ref 1) ∧
    storeGet (runEvents [] [Event.pushArrayStartFixed 1, Event.pushInt 1] initState).store 1 =
      Cont.arr [Val.undef, Val.num (.int 1)] := by
  decide

/-- C3: the claim says a successful decode ends with the frame stack at depth
one and any other depth makes the call fail.  The code violates it: `_decode`
checks only the scanner status, never the stack depth, and since frames are
never popped the decode of the well-formed array `81 01` returns successfully
with the stack at depth 2. -/
theorem c3_returns_successfully_at_depth_two :
    (_decode [] [Event.pushArrayStartFixed 1, Event.pushInt 1] 0).map (fun s => s.parents.length) =
      Except.ok 2 := by
  decide

/-- C4: the claim says a 2-entry map whose first key is a string and whose
second key is an integer decodes to a general mapping holding both entries.
The code violates it: promotion reassigns only the frame's `ref`
(`p.ref = utils.buildMap(p.ref)`) and never the value already pushed into the
parent, so `decodeFirst` returns the stale plain object holding only the
first entry (address 1) while the promoted `Map` holding both correctly
paired entries is orphaned at address 2.  The all-string-keys half of the
claim does hold: both entries land in the string-keyed object. -/
theorem c4_promoted_map_orphaned :
    decodeFirst [0x61]
        [Event.pushObjectStartFixed 2, Event.pushUtf8String 0 0, Event.pushInt 1,
          Event.pushInt 2, Event.pushInt 3] 0 = Except.ok (Val.ref 1) ∧
    storeGet (runEvents [0x61]
        [Event.pushObjectStartFixed 2, Event.pushUtf8String 0 0, Event.pushInt 1,
          Event.pushInt 2, Event.pushInt 3] initState).store 1 =
      Cont.obj [("a", Val.num (.int 1))] ∧
    storeGet (runEvents [0x61]
        [Event.pushObjectStartFixed 2, Event.pushUtf8String 0 0, Event.pushInt 1,
          Event.pushInt 2, Event.pushInt 3] initState).store 2 =
      Cont.map [(Val.str "a", Val.num (.int 1)), (Val.num (.int 2), Val.num (.int 3))] ∧
    decodeFirst [0x61, 0x62]
        [Event.pushObjectStartFixed 2, Event.pushUtf8String 0 0, Event.pushInt 1,
          Event.pushUtf8String 1 1, Event.pushInt 2] 0 = Except.ok (Val.ref 1) ∧
    storeGet (runEvents [0x61, 0x62]
        [Event.pushObjectStartFixed 2, Event.pushUtf8String 0 0, Event.pushInt 1,
          Event.pushUtf8String 1 1, Event.pushInt 2] initState).store 1 =
      Cont.obj [("a", Val.num (.int 1)), ("b", Val.num (.int 2))] := by
  decide

/-- C5: for 16-bit fragment inputs, `pushInt64Neg` pushes an
arbitrary-precision `Bignumber` exactly equal to `-1 - (high * 2^32 + low)`
whenever the high word exceeds `MAX_SAFE_HIGH = 2^21 - 1`, and otherwise the
native number `-1 - (high * 2^32 + low)`, whose defining magnitude
`high * 2^32 + low` is at most `2^53 - 1` — so the native IEEE-754 double
arithmetic is exact at that boundary. -/
theorem c5_pushInt64Neg_exact (f1 f2 g1 g2 : Nat)
    (h1 : f1 < 65536) (h2 : f2 < 65536) (h3 : g1 < 65536) (h4 : g2 < 65536) :
    (MAX_SAFE_HIGH < buildInt32 f1 f2 →
      pushInt64NegVal f1 f2 g1 g2 =
        Val.bignum (-1 - ((buildInt32 f1 f2 : Int) * (SHIFT32 : Int) + (buildInt32 g1 g2 : Int)))) ∧
    (buildInt32 f1 f2 ≤ MAX_SAFE_HIGH →
      pushInt64NegVal f1 f2 g1 g2 =
        Val.num (.int
          (-1 - ((buildInt32 f1 f2 : Int) * (SHIFT32 : Int) + (buildInt32 g1 g2 : Int)))) ∧
      (buildInt32 f1 f2 : Int) * (SHIFT32 : Int) + (buildInt32 g1 g2 : Int) ≤ 2 ^ 53 - 1) := by
  constructor
  · intro h
    simp only [pushInt64NegVal]
    rw [if_pos h]
  · intro h
    refine ⟨?_, ?_⟩
    · simp only [pushInt64NegVal]
      rw [if_neg (by omega)]
    · have hg : buildInt32 g1 g2 ≤ 4294967295 := by unfold buildInt32; omega
      have hf : buildInt32 f1 f2 ≤ 2097151 := by
        have := h; unfold MAX_SAFE_HIGH at this; omega
      unfold SHIFT32
      omega

/-- C5 witness: the theorem applied on both sides of the boundary — high word
`2^21` (Bignumber branch) and high word `3` (native branch). -/
theorem c5_witness :
    pushInt64NegVal 32 0 0 5 =
      Val.bignum (-1 - ((buildInt32 32 0 : Int) * (SHIFT32 : Int) + (buildInt32 0 5 : Int))) ∧
    pushInt64NegVal 0 3 0 7 =
      Val.num (.int (-1 - ((buildInt32 0 3 : Int) * (SHIFT32 : Int) + (buildInt32 0 7 : Int)))) :=
  ⟨(c5_pushInt64Neg_exact 32 0 0 5 (by decide) (by decide) (by decide) (by decide)).1 (by decide),
    ((c5_pushInt64Neg_exact 0 3 0 7 (by decide) (by decide) (by decide) (by decide)).2
      (by decide)).1⟩

/-- C6 counterexample: the claim says a text-string event over bytes that are
not valid UTF-8 makes the decode call fail.  It does not: `pushUtf8String`
goes through `Buffer#toString('utf8')`, which never throws, and the decode of
the lone invalid byte `0xFF` returns successfully. -/
theorem c6_invalid_utf8_does_not_fail :
    (decodeFirst [0xFF] [Event.pushUtf8String 0 0] 0).isOk = true := by
  decide

/-- C6 as amended: a text-string event over invalid UTF-8 bytes does not
abort the decode; the invalid sequence is replaced by U+FFFD and the
substituted string is returned to the caller. -/
theorem c6_invalid_utf8_replaced :
    decodeFirst [0xFF] [Event.pushUtf8String 0 0] 0 =
      Except.ok (Val.str (String.mk [replChar])) := by
  decide

/-- C7 counterexample: the claim says every non-zero scanner status code
raises a decode failure.  `_decode` tests `code > 0`, so the non-zero status
`-1` is silently swallowed by both entry points. -/
theorem c7_negative_status_swallowed :
    (decodeFirst [] [] (-1)).isOk = true ∧ (decodeAll [] [] (-1)).isOk = true := by
  decide

/-- C7 as amended: every scanner status code greater than zero makes both
`decodeFirst` and `decodeAll` raise the decode failure, whatever events were
emitted; negative statuses are not treated as failures. -/
theorem c7_positive_status_raises (heap : List Nat) (evs : List Event) (code : Int)
    (h : 0 < code) :
    decodeFirst heap evs code = Except.error "Failed to parse" ∧
    decodeAll heap evs code = Except.error "Failed to parse" := by
  refine ⟨?_, ?_⟩ <;>
  · simp only [decodeFirst, decodeAll, _decode]
    rw [if_pos h]
    rfl

/-- C7 witness: the amended theorem applied at status code `1` with no
events. -/
theorem c7_witness :
    decodeFirst [] [] 1 = Except.error "Failed to parse" ∧
    decodeAll [] [] 1 = Except.error "Failed to parse" :=
  c7_positive_status_raises [] [] 1 (by decide)

/-- C8 counterexample: the claim says `decodeFirst` fails whenever the scan
produced zero top-level values.  It does not fail: with no events and a
success status it returns (`this._res[0]` on the empty root array). -/
theorem c8_zero_values_no_failure :
    (decodeFirst [] [] 0).isOk = true := by
  decide

/-- C8 as amended: whenever the scan leaves the root array empty (zero
top-level values) and the status is not a failure, `decodeFirst` returns
`undefined` instead of failing. -/
theorem c8_zero_values_returns_undefined (heap : List Nat) (evs : List Event) (code : Int)
    (hc : code ≤ 0)
    (hres : storeGet (runEvents heap evs initState).store 0 = Cont.arr []) :
    decodeFirst heap evs code = Except.ok Val.undef := by
  simp only [decodeFirst, _decode]
  rw [if_neg (by omega)]
  simp [Except.map, res0, hres, arrElems]

/-- C8 witness: the amended theorem applied to the empty scan with status
`0`. -/
theorem c8_witness :
    decodeFirst [] [] 0 = Except.ok Val.undef :=
  c8_zero_values_returns_undefined [] [] 0 (by decide) (by decide)

/-- C9 counterexample: the claim says the negative-NaN event pushes a value
observably distinct from the positive-NaN one.  It does not: `-NaN`
evaluates to `NaN` (ECMAScript unary minus on NaN returns NaN, and all NaN
values are indistinguishable to ECMAScript code), so the builder states after
the two events are identical. -/
theorem c9_negnan_indistinguishable :
    runEvents [] [Event.pushNaNNeg] initState = runEvents [] [Event.pushNaN] initState := by
  decide

/-- C9 as amended: `pushNaNNeg` pushes the same NaN value as `pushNaN`, while
`pushInfinity` and `pushInfinityNeg` push `Infinity` and `-Infinity` as
claimed. -/
theorem c9_nan_normalized_infinities_preserved :
    decodeAll [] [Event.pushNaN, Event.pushNaNNeg, Event.pushInfinity, Event.pushInfinityNeg] 0 =
      Except.ok [Val.num .nan, Val.num .nan, Val.num .inf, Val.num .negInf] := by
  decide

/-- C10: the builder tests the pending key by JavaScript truthiness — in any
state whose current frame is an object or map frame and whose pending key is
falsy (absent `null`, but equally the empty string, `0`, `false` or `NaN`
left by a falsy key), the next pushed item is stored as the fresh pending key
and nothing is inserted into any existing container, so no entry is ever
inserted under a falsy pending key. -/
theorem c10_pending_key_truthiness (s : DState) (p : Frame) (v : Val)
    (hp : s.parents.getLast? = some p)
    (ht : p.type = PType.object ∨ p.type = PType.map)
    (hf : truthy s.tmpKey = false) :
    (_push v s).tmpKey = v ∧
    (_push v s).store.take s.store.length = s.store := by
  rcases ht with h | h
  · simp only [_push, hp, h, hf]
    by_cases hv : isString v
    · simp [hv, List.take_length]
    · simp [hv, List.take_left]
  · simp only [_push, hp, h, hf]
    simp [List.take_length]

/-- C10 witness: the state after opening a 2-entry object and pushing the
empty string as its first key — the pending key is the falsy `""`. -/
def stateW10 : DState :=
  runEvents [] [Event.pushObjectStartFixed 2, Event.pushUtf8String 1 0] initState

/-- C10 witness: pushing `5` while the falsy pending key `""` is held stores
`5` as the fresh pending key and leaves every container untouched. -/
theorem c10_witness :
    (_push (Val.num (.int 5)) stateW10).tmpKey = Val.num (.int 5) ∧
    (_push (Val.num (.int 5)) stateW10).store.take stateW10.store.length = stateW10.store :=
  c10_pending_key_truthiness stateW10
    { type := .object, left := some 2, len := none, length := .undef, ref := 1 }
    (Val.num (.int 5)) (by decide) (.inl (by decide)) (by decide)

end Borc
